import Mathlib

/-!
# Kismet device tracker and 802.11 IE 221 parser

A shallow embedding of `devicetracker.h` and
`dot11_parsers/dot11_ie_221_vendor.cc`, followed by the properties proved
about them.  Definitions come first, theorems after.
-/

namespace Kismet

/-! ## devicetracker.h : reserved PHY ids and update flags -/

/-- The macro `KIS_PHY_ANY` of devicetracker.h. -/
def KIS_PHY_ANY : Int := -1

/-- The macro `KIS_PHY_UNKNOWN` of devicetracker.h. -/
def KIS_PHY_UNKNOWN : Int := -2

/-- Update signal levels in common device. -/
def UCD_UPDATE_SIGNAL : Nat := 1
/-- Update frequency/channel and the seenby maps in common device. -/
def UCD_UPDATE_FREQUENCIES : Nat := 1 <<< 1
/-- Update packet counts in common device. -/
def UCD_UPDATE_PACKETS : Nat := 1 <<< 2
/-- Update GPS data in common device. -/
def UCD_UPDATE_LOCATION : Nat := 1 <<< 3
/-- Update device seenby records. -/
def UCD_UPDATE_SEENBY : Nat := 1 <<< 4
/-- Update encryption options. -/
def UCD_UPDATE_ENCRYPTION : Nat := 1 <<< 5
/-- Never create a new device, only update an existing one. -/
def UCD_UPDATE_EXISTING_ONLY : Nat := 1 <<< 6
/-- Only update signal if we have no existing data. -/
def UCD_UPDATE_EMPTY_SIGNAL : Nat := 1 <<< 7
/-- Only update location if we have no existing location. -/
def UCD_UPDATE_EMPTY_LOCATION : Nat := 1 <<< 8

/-- The nine `UCD_UPDATE_*` names, in the order the header defines them. -/
inductive ucd_flag where
  | signal | frequencies | packets | location | seenby | encryption
  | existing_only | empty_signal | empty_location
  deriving DecidableEq, Repr

/-- The value the header gives each flag name. -/
def ucd_flag.value : ucd_flag → Nat
  | .signal => UCD_UPDATE_SIGNAL
  | .frequencies => UCD_UPDATE_FREQUENCIES
  | .packets => UCD_UPDATE_PACKETS
  | .location => UCD_UPDATE_LOCATION
  | .seenby => UCD_UPDATE_SEENBY
  | .encryption => UCD_UPDATE_ENCRYPTION
  | .existing_only => UCD_UPDATE_EXISTING_ONLY
  | .empty_signal => UCD_UPDATE_EMPTY_SIGNAL
  | .empty_location => UCD_UPDATE_EMPTY_LOCATION

/-- The flag names in declaration order. -/
def ucd_flag.all : List ucd_flag :=
  [.signal, .frequencies, .packets, .location, .seenby, .encryption,
   .existing_only, .empty_signal, .empty_location]

/-- The `in_flags` word a caller builds: the bitwise OR of the chosen flags. -/
def ucd_flags_or (S : List ucd_flag) : Nat :=
  S.foldl (fun acc f => acc ||| f.value) 0

/-- The test `in_flags & FLAG` the tracker applies to the flag word. -/
def ucd_flag_set (in_flags : Nat) (f : ucd_flag) : Bool :=
  in_flags &&& f.value != 0

/-! ## kaitai::kstream, as used by the IE 221 parser -/

/-- One octet of a stream. -/
abbrev Byte := Fin 256

/-- The failure a stream read raises. -/
inductive kstream_error where
  | end_of_stream
  deriving DecidableEq, Repr

/-- Modelled from the spec: the class `kaitai::kstream` is defined in the
Kaitai runtime, not in `dot11_ie_221_vendor.cc`, which only calls it.  It is the sequential byte
stream the parser's comment and calls describe: a buffer and a read position. -/
structure kstream where
  data : List Byte
  pos : Nat
  deriving DecidableEq, Repr

/-- Modelled from the spec: `new kaitai::kstream(str)`, a fresh stream over the
bytes of `str`, positioned at 0. -/
def kstream.of_bytes (bytes : List Byte) : kstream :=
  { data := bytes, pos := 0 }

/-- Modelled from the spec: `kstream::read_bytes(len)` returns the next `len`
bytes and advances past them; with fewer than `len` bytes left it raises an
end-of-stream error, the stream left at its end. -/
def kstream.read_bytes (io : kstream) (len : Nat) :
    Except kstream_error (List Byte) × kstream :=
  if io.pos + len ≤ io.data.length then
    (.ok ((io.data.drop io.pos).take len), { io with pos := io.pos + len })
  else
    (.error .end_of_stream, { io with pos := io.data.length })

/-- Modelled from the spec: `kstream::read_bytes_full()` returns every byte
from the position to the end (possibly none) and leaves the stream at its
end. -/
def kstream.read_bytes_full (io : kstream) : List Byte × kstream :=
  (io.data.drop io.pos, { io with pos := max io.pos io.data.length })

/-- Modelled from the spec: `kstream::read_u1()` returns the byte at the
position and advances by one; at the end of the stream it raises an
end-of-stream error. -/
def kstream.read_u1 (io : kstream) : Except kstream_error Byte × kstream :=
  match io.data[io.pos]? with
  | some b => (.ok b, { io with pos := io.pos + 1 })
  | none => (.error .end_of_stream, io)

/-- Modelled from the spec: `kstream::seek(pos)` moves the read position to
the absolute offset `pos`. -/
def kstream.seek (io : kstream) (pos : Nat) : kstream :=
  { io with pos := pos }

/-! ## dot11_ie_221_vendor.cc -/

/-- The members `dot11_ie_221_vendor::parse` assigns. -/
structure dot11_ie_221_vendor where
  m_vendor_oui : List Byte
  m_vendor_tag : List Byte
  m_vendor_tag_stream : Option kstream
  m_vendor_oui_type : Byte
  deriving DecidableEq, Repr

/-- What a call of `parse` leaves behind: how it ended (normally, or with
the exception that escaped it), the object and the caller's stream. -/
structure parse_outcome where
  result : Except kstream_error Unit
  self : dot11_ie_221_vendor
  p_io : kstream

/-- The body of `dot11_ie_221_vendor::parse(p_io)`, statement by statement;
an exception leaves the assignments made before it in place. -/
def dot11_ie_221_vendor.parse (self : dot11_ie_221_vendor) (p_io : kstream) :
    parse_outcome :=
  -- m_vendor_oui = p_io->read_bytes(3);
  match p_io.read_bytes 3 with
  | (.error e, io1) => { result := .error e, self := self, p_io := io1 }
  | (.ok oui, io1) =>
    let self1 := { self with m_vendor_oui := oui }
    -- m_vendor_tag = p_io->read_bytes_full();
    let (tag, io2) := io1.read_bytes_full
    let self2 := { self1 with m_vendor_tag := tag }
    -- m_vendor_tag_stream.reset(new kaitai::kstream(m_vendor_tag));
    let self3 := { self2 with
      m_vendor_tag_stream := some (kstream.of_bytes self2.m_vendor_tag) }
    -- m_vendor_oui_type = p_io->read_u1();
    match io2.read_u1 with
    | (.error e, io3) => { result := .error e, self := self3, p_io := io3 }
    | (.ok t, io3) =>
      let self4 := { self3 with m_vendor_oui_type := t }
      -- p_io->seek(3);
      { result := .ok (), self := self4, p_io := io3.seek 3 }

/-! ## Associative containers (`std::map`, `std::multimap`) -/

/-- `std::map::find`: the value stored under `k`, if any. -/
def map_find {κ α : Type} [DecidableEq κ] : List (κ × α) → κ → Option α
  | [], _ => none
  | (k', v) :: m, k => if k' = k then some v else map_find m k

/-- `std::map::erase(k)`. -/
def map_erase {κ α : Type} [DecidableEq κ] (m : List (κ × α)) (k : κ) :
    List (κ × α) :=
  m.filter (fun e => decide (e.1 ≠ k))

/-- The assignment `m[k] = v` of a `std::map`: one entry per key. -/
def map_set {κ α : Type} [DecidableEq κ] (m : List (κ × α)) (k : κ) (v : α) :
    List (κ × α) :=
  map_erase m k ++ [(k, v)]

/-! ## Device identity and record -/

/-- A shared pointer to a tracked device: the address of the record. -/
abbrev DevRef := Nat

/-- Modelled from the spec: `mac_addr` is declared outside the header; a 6-byte
value plus an optional 6-byte mask. -/
structure mac_addr where
  longmac : Nat
  longmask : Nat
  deriving DecidableEq, Repr

/-- Modelled from the spec: `device_key` is declared outside the header; the
composite `(phy_id, mac, key_salt)`, compared field by field. -/
structure device_key where
  phy_id : Int
  mac : Nat
  key_salt : Nat
  deriving DecidableEq, Repr

/-- Modelled from the spec: the signal record (min/max/last RSSI, noise). -/
structure signal_record where
  min_rssi : Int
  max_rssi : Int
  last_rssi : Int
  noise : Int
  deriving DecidableEq, Repr

/-- Modelled from the spec: the location record (bounding box, last fix and
the sums and count behind the running average). -/
structure location_record where
  min_lat : Int
  max_lat : Int
  min_lon : Int
  max_lon : Int
  last_lat : Int
  last_lon : Int
  sum_lat : Int
  sum_lon : Int
  num_fixes : Nat
  deriving DecidableEq, Repr

/-- Modelled from the spec: one seenby record,
`{first_seen, last_seen, num_packets, frequency_histogram}`. -/
structure seenby_record where
  first_seen : Int
  last_seen : Int
  num_packets : Nat
  frequency_histogram : List (Nat × Nat)
  deriving DecidableEq, Repr

/-- Modelled from the spec: `kis_tracked_device_base` is declared outside
the header; the essential attributes of the device record, with the ordinal
("internal id") the index assigns. -/
structure kis_tracked_device_base where
  key : device_key
  mac : mac_addr
  phy_id : Int
  basic_type : String
  username : String
  tags : List (String × String)
  first_seen : Int
  last_seen : Int
  packets : Nat
  data_packets : Nat
  error_packets : Nat
  crypt : Nat
  signal : Option signal_record
  location : Option location_record
  seenby : List (Nat × seenby_record)
  freq_map : List (Nat × Nat)
  mod_count : Nat
  ordinal : Nat
  deriving DecidableEq, Repr

/-- Modelled from the spec: the PHY handler entity; `id` and `name` are what
the registry reads. -/
structure kis_phy_handler where
  phyname : String
  phyid : Int
  deriving DecidableEq, Repr

/-- Modelled from the spec: the per-packet common info
(signal, frequency, encryption, classification, source UUID). -/
structure kis_common_info where
  signal_rssi : Int
  signal_noise : Int
  freq : Nat
  crypt : Nat
  is_data : Bool
  is_error : Bool
  source_uuid : Nat
  deriving DecidableEq, Repr

/-- Modelled from the spec: the parts of a packet the update reads: its
timestamp and GPS fix. -/
structure kis_packet where
  ts : Int
  gps_fix : Nat
  gps_lat : Int
  gps_lon : Int
  deriving DecidableEq, Repr

/-- The error kinds of the spec's error model that the modelled operations
raise. -/
inductive tracker_error where
  | NotFound
  | Duplicate
  | DuplicateName
  | NoExistingDevice
  deriving DecidableEq, Repr

/-- Events published on the event bus. -/
inductive eventbus_event where
  | NEW_PHY (handler : kis_phy_handler)
  | NEW_DEVICE (device : DevRef)
  deriving DecidableEq, Repr

/-- The calls of the view API the index operations make. -/
inductive view_call where
  | new_view_device (device : DevRef)
  | update_view_device (device : DevRef)
  | remove_view_device (device : DevRef)
  deriving DecidableEq, Repr

/-! ## device_tracker -/

/-- The members of `class device_tracker` the modelled operations read or
write, under the names of the header, followed by the environment a call
works in: the heap of device records, the event bus, the view calls made and
the state store's user names and tags. -/
structure device_tracker where
  num_packets : Nat
  num_datapackets : Nat
  num_errorpackets : Nat
  num_filterpackets : Nat
  phy_packets : List (Int × Nat)
  phy_datapackets : List (Int × Nat)
  phy_errorpackets : List (Int × Nat)
  phy_filterpackets : List (Int × Nat)
  device_idle_expiration : Int
  device_idle_min_packets : Nat
  max_num_devices : Nat
  full_refresh_time : Int
  tracked_map : List (device_key × DevRef)
  tracked_vec : List DevRef
  tracked_mac_multimap : List (mac_addr × DevRef)
  immutable_tracked_vec : List (Option DevRef)
  next_phy_id : Int
  phy_handler_map : List (Int × kis_phy_handler)
  devices : DevRef → kis_tracked_device_base
  heap_next : DevRef
  eventbus : List eventbus_event
  view_calls : List view_call
  stored_user_names : List ((String × mac_addr) × String)
  stored_tags : List ((String × mac_addr) × List (String × String))

/-- The lookup `fetch_device(in_key)`: the device the primary map holds
under the key, or null. -/
def fetch_device (s : device_tracker) (in_key : device_key) : Option DevRef :=
  map_find s.tracked_map in_key

/-- The lookup `fetch_phy_handler(in_phy)`. -/
def fetch_phy_handler (s : device_tracker) (in_phy : Int) :
    Option kis_phy_handler :=
  map_find s.phy_handler_map in_phy

/-- The lookup `fetch_phy_handler_by_name(in_name)`: the first registered
handler of that name. -/
def fetch_phy_handler_by_name (s : device_tracker) (in_name : String) :
    Option kis_phy_handler :=
  (s.phy_handler_map.find? (fun e => decide (e.2.phyname = in_name))).map
    (fun e => e.2)

/-- Modelled from the spec: the header only declares
`register_phy_handler`.  `register_phy(handler) → id` assigns the next id (`next_phy_id`),
stores the handler under it, emits a `NEW_PHY` event with the handler, and
fails with `DuplicateName` if the name is already registered.  The C++ `int`
is taken unbounded. -/
def register_phy_handler (s : device_tracker) (in_weak_handler : kis_phy_handler) :
    Except tracker_error Int × device_tracker :=
  match fetch_phy_handler_by_name s in_weak_handler.phyname with
  | some _ => (.error .DuplicateName, s)
  | none =>
    let num := s.next_phy_id
    let strongphy : kis_phy_handler := { in_weak_handler with phyid := num }
    (.ok num,
      { s with
        next_phy_id := num + 1
        phy_handler_map := map_set s.phy_handler_map num strongphy
        eventbus := s.eventbus ++ [.NEW_PHY strongphy] })

/-- A run of `register_phy_handler` calls, one per handler of the list in
order: the final tracker and what each call returned. -/
def register_phy_handlers (s : device_tracker) :
    List kis_phy_handler → device_tracker × List (Except tracker_error Int)
  | [] => (s, [])
  | h :: hs =>
    let r := register_phy_handler s h
    let rest := register_phy_handlers r.2 hs
    (rest.1, r.1 :: rest.2)

/-- The ids a run of registrations returned, in call order. -/
def returned_ids : List (Except tracker_error Int) → List Int
  | [] => []
  | .ok id :: rs => id :: returned_ids rs
  | .error _ :: rs => returned_ids rs

/-- Modelled from the spec: the header only declares `AddDevice`.
`insert(device) → ordinal` fails with `Duplicate` if the key exists,
assigns the next ordinal (the size of the ordinal vector), stores the device
in the primary map, the device vector and the ordinal vector, appends to the
MAC multimap and notifies the views of the insertion. -/
def AddDevice (s : device_tracker) (device : DevRef) :
    Except tracker_error Nat × device_tracker :=
  let d := s.devices device
  match fetch_device s d.key with
  | some _ => (.error .Duplicate, s)
  | none =>
    let ordinal := s.immutable_tracked_vec.length
    (.ok ordinal,
      { s with
        devices := Function.update s.devices device { d with ordinal := ordinal }
        tracked_map := map_set s.tracked_map d.key device
        tracked_vec := s.tracked_vec ++ [device]
        immutable_tracked_vec := s.immutable_tracked_vec ++ [some device]
        tracked_mac_multimap := s.tracked_mac_multimap ++ [(d.mac, device)]
        view_calls := s.view_calls ++ [.new_view_device device] })

/-- Modelled from the spec: `update_full_refresh()` is declared only; it
records that the device structure changed, `full_refresh_time = now`. -/
def update_full_refresh (s : device_tracker) (now : Int) : device_tracker :=
  { s with full_refresh_time := now }

/-- Modelled from the spec: the removal the eviction sweeps perform,
`remove(key)`: removes the device from the primary map, the device vector
and the MAC multimap, sets its slot of the ordinal vector to null, notifies
the views and bumps `full_refresh_time`; `NotFound` on a lookup miss. -/
def remove_device (s : device_tracker) (key : device_key) (now : Int) :
    Except tracker_error Unit × device_tracker :=
  match fetch_device s key with
  | none => (.error .NotFound, s)
  | some device =>
    let d := s.devices device
    (.ok (),
      update_full_refresh
        { s with
          tracked_map := map_erase s.tracked_map key
          tracked_vec := s.tracked_vec.filter (fun r => decide (r ≠ device))
          tracked_mac_multimap :=
            s.tracked_mac_multimap.filter
              (fun e => decide (¬ (e.1 = d.mac ∧ e.2 = device)))
          immutable_tracked_vec := s.immutable_tracked_vec.set d.ordinal none
          view_calls := s.view_calls ++ [.remove_view_device device] }
        now)

/-- Modelled from the spec: the test of the idle-timeout sweep,
`now - last_seen > idle_expiration` and `packets ≥ idle_min_packets`. -/
def idle_expired (s : device_tracker) (now : Int) (device : DevRef) : Bool :=
  decide (now - (s.devices device).last_seen > s.device_idle_expiration) &&
  decide ((s.devices device).packets ≥ s.device_idle_min_packets)

/-- One step of the idle-timeout sweep: the device is removed if the test
holds. -/
def idle_sweep_step (now : Int) (s : device_tracker) (device : DevRef) :
    device_tracker :=
  if idle_expired s now device then
    (remove_device s (s.devices device).key now).2
  else s

/-- Modelled from the spec: the idle-timeout sweep of `timetracker_event`,
which the header only declares: for each device of the device vector, as it
stood when the sweep began, remove it if the test holds. -/
def idle_timeout_sweep (s : device_tracker) (now : Int) : device_tracker :=
  s.tracked_vec.foldl (idle_sweep_step now) s

/-- The index consistency invariant: every device the primary map holds is
stored under its own key, is among the MAC multimap entries of its MAC and
sits in the ordinal vector at its ordinal; the device vector lists exactly
the devices of the primary map. -/
def index_consistent (s : device_tracker) : Prop :=
  (∀ k r, fetch_device s k = some r →
      (s.devices r).key = k ∧
      ((s.devices r).mac, r) ∈ s.tracked_mac_multimap ∧
      s.immutable_tracked_vec[(s.devices r).ordinal]? = some (some r)) ∧
  (∀ r, r ∈ s.tracked_vec ↔ ∃ k, fetch_device s k = some r)

/-- Modelled from the spec: the header only declares the constructor; a
tracker with no device and no PHY, the configuration values, the first PHY
id and the clock being the arguments. -/
def device_tracker.empty (idle_expiration : Int) (idle_min_packets : Nat)
    (max_devices : Nat) (first_phy_id : Int) (now : Int) : device_tracker :=
  { num_packets := 0, num_datapackets := 0, num_errorpackets := 0,
    num_filterpackets := 0, phy_packets := [], phy_datapackets := [],
    phy_errorpackets := [], phy_filterpackets := [],
    device_idle_expiration := idle_expiration,
    device_idle_min_packets := idle_min_packets,
    max_num_devices := max_devices, full_refresh_time := now,
    tracked_map := [], tracked_vec := [], tracked_mac_multimap := [],
    immutable_tracked_vec := [], next_phy_id := first_phy_id,
    phy_handler_map := [],
    devices := fun _ =>
      { key := ⟨0, 0, 0⟩, mac := ⟨0, 0⟩, phy_id := 0, basic_type := "",
        username := "", tags := [], first_seen := 0, last_seen := 0,
        packets := 0, data_packets := 0, error_packets := 0, crypt := 0,
        signal := none, location := none, seenby := [], freq_map := [],
        mod_count := 0, ordinal := 0 },
    heap_next := 0, eventbus := [], view_calls := [],
    stored_user_names := [], stored_tags := [] }

/-! ## UpdateCommonDevice -/

/-- Add one to the count a histogram (`freq → count`) holds for `freq`. -/
def histogram_incr (m : List (Nat × Nat)) (freq : Nat) : List (Nat × Nat) :=
  map_set m freq ((map_find m freq).getD 0 + 1)

/-- Modelled from the spec: `UPDATE_SIGNAL`, merge min/max/last RSSI and
noise into the signal record. -/
def merge_signal (pack_common : kis_common_info) :
    Option signal_record → signal_record
  | none =>
    { min_rssi := pack_common.signal_rssi, max_rssi := pack_common.signal_rssi,
      last_rssi := pack_common.signal_rssi, noise := pack_common.signal_noise }
  | some r =>
    { min_rssi := min r.min_rssi pack_common.signal_rssi,
      max_rssi := max r.max_rssi pack_common.signal_rssi,
      last_rssi := pack_common.signal_rssi, noise := pack_common.signal_noise }

/-- Modelled from the spec: `UPDATE_LOCATION`, update the bounding box, the
last fix and the running average. -/
def merge_location (in_pack : kis_packet) :
    Option location_record → location_record
  | none =>
    { min_lat := in_pack.gps_lat, max_lat := in_pack.gps_lat,
      min_lon := in_pack.gps_lon, max_lon := in_pack.gps_lon,
      last_lat := in_pack.gps_lat, last_lon := in_pack.gps_lon,
      sum_lat := in_pack.gps_lat, sum_lon := in_pack.gps_lon, num_fixes := 1 }
  | some l =>
    { min_lat := min l.min_lat in_pack.gps_lat,
      max_lat := max l.max_lat in_pack.gps_lat,
      min_lon := min l.min_lon in_pack.gps_lon,
      max_lon := max l.max_lon in_pack.gps_lon,
      last_lat := in_pack.gps_lat, last_lon := in_pack.gps_lon,
      sum_lat := l.sum_lat + in_pack.gps_lat,
      sum_lon := l.sum_lon + in_pack.gps_lon, num_fixes := l.num_fixes + 1 }

/-- Modelled from the spec: `UPDATE_SEENBY`, upsert the seenby record of the
packet's data-source UUID. -/
def merge_seenby (pack_common : kis_common_info) (in_pack : kis_packet)
    (m : List (Nat × seenby_record)) : List (Nat × seenby_record) :=
  let hist (h : List (Nat × Nat)) :=
    if pack_common.freq = 0 then h else histogram_incr h pack_common.freq
  match map_find m pack_common.source_uuid with
  | none =>
    map_set m pack_common.source_uuid
      { first_seen := in_pack.ts, last_seen := in_pack.ts, num_packets := 1,
        frequency_histogram := hist [] }
  | some sb =>
    map_set m pack_common.source_uuid
      { sb with
        last_seen := max sb.last_seen in_pack.ts
        num_packets := sb.num_packets + 1
        frequency_histogram := hist sb.frequency_histogram }

/-- Modelled from the spec: the signal facet.  `UPDATE_SIGNAL` merges the
signal; `UPDATE_EMPTY_SIGNAL` asks for the write and allows it only while
the signal record is uninitialised. -/
def update_signal (in_flags : Nat) (pack_common : kis_common_info)
    (d : kis_tracked_device_base) : kis_tracked_device_base :=
  if (ucd_flag_set in_flags .signal || ucd_flag_set in_flags .empty_signal) &&
      !(ucd_flag_set in_flags .empty_signal && d.signal.isSome)
  then { d with signal := some (merge_signal pack_common d.signal) } else d

/-- Modelled from the spec: `UPDATE_FREQUENCIES` increments the frequency
histogram by the packet's frequency; a zero frequency is skipped. -/
def update_frequencies (in_flags : Nat) (pack_common : kis_common_info)
    (d : kis_tracked_device_base) : kis_tracked_device_base :=
  if ucd_flag_set in_flags .frequencies && decide (pack_common.freq ≠ 0)
  then { d with freq_map := histogram_incr d.freq_map pack_common.freq } else d

/-- Modelled from the spec: `UPDATE_PACKETS` increments the total, data and
error counters per packet classification. -/
def update_packets (in_flags : Nat) (pack_common : kis_common_info)
    (d : kis_tracked_device_base) : kis_tracked_device_base :=
  if ucd_flag_set in_flags .packets then
    { d with
      packets := d.packets + 1
      data_packets := d.data_packets + (if pack_common.is_data then 1 else 0)
      error_packets := d.error_packets + (if pack_common.is_error then 1 else 0) }
  else d

/-- Modelled from the spec: the location facet.  `UPDATE_LOCATION` merges the
location; `UPDATE_EMPTY_LOCATION` asks for the write and allows it only
while the location is unset; a GPS fix below 2 is skipped. -/
def update_location (in_flags : Nat) (in_pack : kis_packet)
    (d : kis_tracked_device_base) : kis_tracked_device_base :=
  if (ucd_flag_set in_flags .location || ucd_flag_set in_flags .empty_location) &&
      !(ucd_flag_set in_flags .empty_location && d.location.isSome) &&
      decide (2 ≤ in_pack.gps_fix)
  then { d with location := some (merge_location in_pack d.location) } else d

/-- Modelled from the spec: `UPDATE_SEENBY` upserts the seenby record. -/
def update_seenby (in_flags : Nat) (pack_common : kis_common_info)
    (in_pack : kis_packet) (d : kis_tracked_device_base) :
    kis_tracked_device_base :=
  if ucd_flag_set in_flags .seenby
  then { d with seenby := merge_seenby pack_common in_pack d.seenby } else d

/-- Modelled from the spec: `UPDATE_ENCRYPTION` overwrites the crypt set. -/
def update_encryption (in_flags : Nat) (pack_common : kis_common_info)
    (d : kis_tracked_device_base) : kis_tracked_device_base :=
  if ucd_flag_set in_flags .encryption
  then { d with crypt := pack_common.crypt } else d

/-- Modelled from the spec: step 5, always: `last_seen` becomes the packet's
time but never moves backward, and the modification counter is bumped. -/
def update_last_seen (in_pack : kis_packet) (d : kis_tracked_device_base) :
    kis_tracked_device_base :=
  { d with last_seen := max d.last_seen in_pack.ts, mod_count := d.mod_count + 1 }

/-- Modelled from the spec: steps 4 and 5 of the update algorithm: for each
set flag the facet is merged from `common` according to the flag table, then
`last_seen` and the modification counter are updated. -/
def merge_common (in_flags : Nat) (pack_common : kis_common_info)
    (in_pack : kis_packet) (d : kis_tracked_device_base) :
    kis_tracked_device_base :=
  update_last_seen in_pack
    (update_encryption in_flags pack_common
      (update_seenby in_flags pack_common in_pack
        (update_location in_flags in_pack
          (update_packets in_flags pack_common
            (update_frequencies in_flags pack_common
              (update_signal in_flags pack_common d))))))

/-- Modelled from the spec: the record of a device on first observation,
`first_seen = now`, every counter zero; the ordinal is assigned on insert. -/
def new_device_record (key : device_key) (in_mac : mac_addr)
    (phy : kis_phy_handler) (in_basic_type : String) (now : Int) :
    kis_tracked_device_base :=
  { key := key, mac := in_mac, phy_id := phy.phyid, basic_type := in_basic_type,
    username := "", tags := [], first_seen := now, last_seen := now,
    packets := 0, data_packets := 0, error_packets := 0, crypt := 0,
    signal := none, location := none, seenby := [], freq_map := [],
    mod_count := 0, ordinal := 0 }

/-- Modelled from the spec: "apply stored username and tags from state store
if present", looked up by PHY name and MAC. -/
def apply_stored (s : device_tracker) (phy : kis_phy_handler)
    (in_mac : mac_addr) (d : kis_tracked_device_base) :
    kis_tracked_device_base :=
  { d with
    username :=
      (map_find s.stored_user_names (phy.phyname, in_mac)).getD d.username
    tags := (map_find s.stored_tags (phy.phyname, in_mac)).getD d.tags }

/-- Steps 3 to 6 of the update on the device `device`: merge, then have the
views re-evaluate it. -/
def update_existing (s : device_tracker) (device : DevRef) (in_flags : Nat)
    (pack_common : kis_common_info) (in_pack : kis_packet) : device_tracker :=
  { s with
    devices := Function.update s.devices device
      (merge_common in_flags pack_common in_pack (s.devices device))
    view_calls := s.view_calls ++ [.update_view_device device] }

/-- Modelled from the spec: the header only declares
`UpdateCommonDevice`.  The algorithm of the common-info update pipeline: compute
`key = (phy.id, mac, salt = 0)` and look it up; if absent, fail with
`NoExistingDevice` under `UPDATE_EXISTING_ONLY`, else create the device,
insert it, apply the stored user name and tags and emit `NEW_DEVICE`; then
merge per flag and return the device. -/
def UpdateCommonDevice (s : device_tracker) (pack_common : kis_common_info)
    (in_mac : mac_addr) (phy : kis_phy_handler) (in_pack : kis_packet)
    (in_flags : Nat) (in_basic_type : String) :
    Except tracker_error DevRef × device_tracker :=
  let key : device_key :=
    { phy_id := phy.phyid, mac := in_mac.longmac, key_salt := 0 }
  match fetch_device s key with
  | some device =>
    (.ok device, update_existing s device in_flags pack_common in_pack)
  | none =>
    if ucd_flag_set in_flags .existing_only then
      (.error .NoExistingDevice, s)
    else
      let device := s.heap_next
      let s1 : device_tracker :=
        { s with
          devices := Function.update s.devices device
            (new_device_record key in_mac phy in_basic_type in_pack.ts)
          heap_next := device + 1 }
      let s2 := (AddDevice s1 device).2
      let s3 : device_tracker :=
        { s2 with
          devices := Function.update s2.devices device
            (apply_stored s2 phy in_mac (s2.devices device))
          eventbus := s2.eventbus ++ [.NEW_DEVICE device] }
      (.ok device, update_existing s3 device in_flags pack_common in_pack)

/-! ## devicelist_scope_locker -/

/-- A pointer to a device tracker: the address of the object. -/
abbrev TrackerRef := Nat

/-- A call of one of the two device-list lock methods on a tracker. -/
inductive devicelist_call where
  | lock_devicelist (tracker : TrackerRef)
  | unlock_devicelist (tracker : TrackerRef)
  deriving DecidableEq, Repr

/-- The device-list locks of the trackers of the process: for each tracker
how deep its recursive `devicelist_mutex` is held, and the lock calls made
so far, in order. -/
structure devicelist_locks where
  depth : TrackerRef → Nat
  calls : List devicelist_call

/-- Modelled from the spec: `lock_devicelist()` is declared only; it acquires
the tracker's recursive device-list lock once. -/
def lock_devicelist (w : devicelist_locks) (tracker : TrackerRef) :
    devicelist_locks :=
  { depth := Function.update w.depth tracker (w.depth tracker + 1),
    calls := w.calls ++ [.lock_devicelist tracker] }

/-- Modelled from the spec: `unlock_devicelist()` is declared only; it
releases the tracker's recursive device-list lock once. -/
def unlock_devicelist (w : devicelist_locks) (tracker : TrackerRef) :
    devicelist_locks :=
  { depth := Function.update w.depth tracker (w.depth tracker - 1),
    calls := w.calls ++ [.unlock_devicelist tracker] }

/-- The two members of `devicelist_scope_locker`; `none` is the null
pointer. -/
structure devicelist_scope_locker where
  tracker : Option TrackerRef
  sharedtracker : Option TrackerRef
  deriving DecidableEq, Repr

/-- The constructor `devicelist_scope_locker(device_tracker *in_tracker)`;
no result when the null pointer is dereferenced. -/
def devicelist_scope_locker.construct_raw (w : devicelist_locks)
    (in_tracker : Option TrackerRef) :
    Option (devicelist_locks × devicelist_scope_locker) :=
  match in_tracker with
  | none => none
  | some t =>
    -- in_tracker->lock_devicelist(); tracker = in_tracker;
    some (lock_devicelist w t, { tracker := some t, sharedtracker := none })

/-- The constructor
`devicelist_scope_locker(std::shared_ptr<device_tracker> in_tracker)`;
no result when the null pointer is dereferenced. -/
def devicelist_scope_locker.construct_shared (w : devicelist_locks)
    (in_tracker : Option TrackerRef) :
    Option (devicelist_locks × devicelist_scope_locker) :=
  match in_tracker with
  | none => none
  | some t =>
    -- in_tracker->lock_devicelist(); sharedtracker = in_tracker; tracker = NULL;
    some (lock_devicelist w t, { tracker := none, sharedtracker := some t })

/-- The destructor `~devicelist_scope_locker()`. -/
def devicelist_scope_locker.destroy (w : devicelist_locks)
    (l : devicelist_scope_locker) : devicelist_locks :=
  match l.tracker with
  | some t => unlock_devicelist w t
  | none =>
    match l.sharedtracker with
    | some t => unlock_devicelist w t
    | none => w

/-! ## create_device_tracker -/

/-- Modelled from the spec: `global_registry` is declared outside the
header; the
process-wide service locator: the `devicetracker` pointer, the lifetime
globals and the globals stored by name. -/
structure global_registry where
  devicetracker : Option TrackerRef
  lifetime_vec : List TrackerRef
  ext_globals : List (String × TrackerRef)
  deriving DecidableEq, Repr

/-- The static method `device_tracker::global_name()`. -/
def global_name : String := "DEVICETRACKER"

/-- Modelled from the spec: `register_lifetime_global(mon)` adds the object
to the registry's lifetime globals. -/
def global_registry.register_lifetime_global (reg : global_registry)
    (mon : TrackerRef) : global_registry :=
  { reg with lifetime_vec := reg.lifetime_vec ++ [mon] }

/-- Modelled from the spec: `insert_global(name, mon)` stores the object
under the name. -/
def global_registry.insert_global (reg : global_registry) (in_name : String)
    (mon : TrackerRef) : global_registry :=
  { reg with ext_globals := map_set reg.ext_globals in_name mon }

/-- Modelled from the spec: the lookup of the global stored under a name. -/
def global_registry.fetch_global (reg : global_registry) (in_name : String) :
    Option TrackerRef :=
  map_find reg.ext_globals in_name

/-- The static method `create_device_tracker(in_globalreg)`; `mon` is the
object `new device_tracker(in_globalreg)` returned, the private
constructor being declared only. -/
def create_device_tracker (in_globalreg : global_registry) (mon : TrackerRef) :
    TrackerRef × global_registry :=
  -- in_globalreg->devicetracker = mon.get();
  let reg1 := { in_globalreg with devicetracker := some mon }
  -- in_globalreg->register_lifetime_global(mon);
  let reg2 := reg1.register_lifetime_global mon
  -- in_globalreg->insert_global(global_name(), mon);
  let reg3 := reg2.insert_global global_name mon
  (mon, reg3)

/-! ## The idle-eviction scenario -/

/-- The key of the scenario's device: PHY 0, MAC aa:bb:cc:dd:ee:ff. -/
def scenario_key : device_key :=
  { phy_id := 0, mac := 0xaabbccddeeff, key_salt := 0 }

/-- The device of the idle-eviction scenario: `last_seen = t0 = 1000`,
`packets = 10`. -/
def scenario_device : kis_tracked_device_base :=
  { key := scenario_key, mac := ⟨0xaabbccddeeff, 0⟩, phy_id := 0,
    basic_type := "Wi-Fi Device", username := "", tags := [],
    first_seen := 1000, last_seen := 1000, packets := 10, data_packets := 0,
    error_packets := 0, crypt := 0, signal := none, location := none,
    seenby := [], freq_map := [], mod_count := 0, ordinal := 0 }

/-- The tracker of the idle-eviction scenario: `idle_expiration = 60`,
`idle_min_packets = 5`, and the device inserted at address 0. -/
def scenario_tracker : device_tracker :=
  (AddDevice
    { device_tracker.empty 60 5 100 0 1000 with
      devices := fun _ => scenario_device, heap_next := 1 } 0).2

/-- The packet of the create-on-first-packet scenario: signal -40 dBm,
frequency 2412 MHz, data source 1. -/
def scenario_common : kis_common_info :=
  { signal_rssi := -40, signal_noise := 0, freq := 2412, crypt := 0,
    is_data := true, is_error := false, source_uuid := 1 }

/-- A packet received at `t0 = 1000`, without a GPS fix. -/
def scenario_packet : kis_packet :=
  { ts := 1000, gps_fix := 0, gps_lat := 0, gps_lon := 0 }

/-- The PHY "IEEE802.11", registered under id 0. -/
def scenario_phy : kis_phy_handler := { phyname := "IEEE802.11", phyid := 0 }

/-- The create-on-first-packet scenario: the first packet of MAC
aa:bb:cc:dd:ee:ff on an empty tracker, the six facet flags set. -/
def scenario_created : Except tracker_error DevRef × device_tracker :=
  UpdateCommonDevice (device_tracker.empty 60 5 100 0 0) scenario_common
    ⟨0xaabbccddeeff, 0⟩ scenario_phy scenario_packet
    (ucd_flags_or [.signal, .frequencies, .packets, .location, .seenby, .encryption])
    "Wi-Fi Device"

/-! ## Theorems -/

theorem nat_or_eq_zero (a b : Nat) : a ||| b = 0 ↔ a = 0 ∧ b = 0 := by
  constructor
  · intro h
    have hb : ∀ i, a.testBit i = false ∧ b.testBit i = false := by
      intro i
      have := congrArg (fun n => Nat.testBit n i) h
      simpa [Nat.testBit_or] using this
    exact ⟨Nat.eq_of_testBit_eq (fun i => by simp [(hb i).1]),
      Nat.eq_of_testBit_eq (fun i => by simp [(hb i).2])⟩
  · rintro ⟨rfl, rfl⟩
    rfl

theorem nat_or_and_distrib (a b f : Nat) :
    (a ||| b) &&& f = (a &&& f) ||| (b &&& f) := by
  rw [Nat.and_comm, Nat.and_or_distrib_left, Nat.and_comm f a, Nat.and_comm f b]

theorem ucd_flag_value_and (x f : ucd_flag) :
    x.value &&& f.value ≠ 0 ↔ f = x := by
  cases x <;> cases f <;> decide

theorem ucd_flag_value_lt (f : ucd_flag) : f.value < 2 ^ 9 := by
  cases f <;> decide

theorem ucd_flags_foldl_lt (S : List ucd_flag) (acc : Nat) (h : acc < 2 ^ 9) :
    S.foldl (fun a g => a ||| g.value) acc < 2 ^ 9 := by
  induction S generalizing acc with
  | nil => exact h
  | cons x xs ih =>
    rw [List.foldl_cons]
    exact ih _ (Nat.or_lt_two_pow h (ucd_flag_value_lt x))

theorem ucd_flags_foldl_and (S : List ucd_flag) (acc : Nat) (f : ucd_flag) :
    (S.foldl (fun a g => a ||| g.value) acc) &&& f.value ≠ 0 ↔
      (acc &&& f.value ≠ 0 ∨ f ∈ S) := by
  induction S generalizing acc with
  | nil => simp
  | cons x xs ih =>
    rw [List.foldl_cons, ih, nat_or_and_distrib]
    have hx := ucd_flag_value_and x f
    constructor
    · rintro (h | h)
      · by_cases ha : acc &&& f.value = 0
        · rw [ha, Nat.zero_or] at h
          exact Or.inr (by rw [hx.mp h]; exact List.mem_cons_self _ _)
        · exact Or.inl ha
      · exact Or.inr (List.mem_cons_of_mem _ h)
    · rintro (h | h)
      · left
        intro h0
        exact h ((nat_or_eq_zero _ _).mp h0).1
      · rcases List.mem_cons.mp h with h | h
        · left
          intro h0
          exact (hx.mpr h) ((nat_or_eq_zero _ _).mp h0).2
        · exact Or.inr h

/-- C1: the nine UCD_UPDATE flags are 2^0 .. 2^8 in declaration order, hence
powers of two and pairwise distinct; the OR of any list S of flags fits the
32-bit `unsigned int in_flags`, and for every S and every flag f the test
`(OR of S) & f` is non-zero exactly when f is in S. -/
theorem ucd_flags_form_bitset :
    ucd_flag.all.map ucd_flag.value = (List.range 9).map (fun i => 2 ^ i) ∧
    (ucd_flag.all.map ucd_flag.value).Nodup ∧
    (∀ f : ucd_flag, f ∈ ucd_flag.all ∧ ∃ i, i < 9 ∧ f.value = 2 ^ i) ∧
    (∀ f g : ucd_flag, f.value = g.value → f = g) ∧
    (∀ S : List ucd_flag, ucd_flags_or S < 2 ^ 32) ∧
    (∀ (S : List ucd_flag) (f : ucd_flag),
      (ucd_flags_or S &&& f.value ≠ 0 ↔ f ∈ S) ∧
      (ucd_flag_set (ucd_flags_or S) f = true ↔ f ∈ S)) := by
  refine ⟨by decide, by decide, ?_, ?_, ?_, ?_⟩
  · intro f
    cases f
    · exact ⟨by decide, 0, by decide, by decide⟩
    · exact ⟨by decide, 1, by decide, by decide⟩
    · exact ⟨by decide, 2, by decide, by decide⟩
    · exact ⟨by decide, 3, by decide, by decide⟩
    · exact ⟨by decide, 4, by decide, by decide⟩
    · exact ⟨by decide, 5, by decide, by decide⟩
    · exact ⟨by decide, 6, by decide, by decide⟩
    · exact ⟨by decide, 7, by decide, by decide⟩
    · exact ⟨by decide, 8, by decide, by decide⟩
  · intro f g
    cases f <;> cases g <;> decide
  · intro S
    exact lt_trans (ucd_flags_foldl_lt S 0 (by decide)) (by decide)
  · intro S f
    have h := ucd_flags_foldl_and S 0 f
    have key : ucd_flags_or S &&& f.value ≠ 0 ↔ f ∈ S := by
      unfold ucd_flags_or
      rw [h]
      simp
    refine ⟨key, ?_⟩
    unfold ucd_flag_set
    rw [bne_iff_ne]
    exact key

/-- C2: the reserved PHY ids are ANY = -1 and UNKNOWN = -2, distinct and both
negative, so no id that is at least 0 equals either of them. -/
theorem reserved_phy_ids_not_registered (id : Int) (h : 0 ≤ id) :
    KIS_PHY_ANY = -1 ∧ KIS_PHY_UNKNOWN = -2 ∧ KIS_PHY_ANY ≠ KIS_PHY_UNKNOWN ∧
    KIS_PHY_ANY < 0 ∧ KIS_PHY_UNKNOWN < 0 ∧
    id ≠ KIS_PHY_ANY ∧ id ≠ KIS_PHY_UNKNOWN := by
  unfold KIS_PHY_ANY KIS_PHY_UNKNOWN
  refine ⟨rfl, rfl, by decide, by decide, by decide, ?_, ?_⟩ <;> omega

theorem reserved_phy_ids_not_registered_witness :
    (0 : Int) ≤ 0 ∧ (0 : Int) ≠ KIS_PHY_ANY ∧ (0 : Int) ≠ KIS_PHY_UNKNOWN :=
  ⟨le_refl 0, (reserved_phy_ids_not_registered 0 (le_refl 0)).2.2.2.2.2.1,
    (reserved_phy_ids_not_registered 0 (le_refl 0)).2.2.2.2.2.2⟩

/-! ### dot11_ie_221_vendor::parse -/

theorem kstream_read_bytes_three (input : List Byte) (h : 3 ≤ input.length) :
    (kstream.of_bytes input).read_bytes 3 =
      (.ok (input.take 3), { data := input, pos := 3 }) := by
  simp [kstream.read_bytes, kstream.of_bytes, h]

theorem kstream_read_u1_at_end (input : List Byte) (p : Nat)
    (h : input.length ≤ p) :
    kstream.read_u1 { data := input, pos := p } =
      (.error .end_of_stream, { data := input, pos := p }) := by
  have hn : input[p]? = none := List.getElem?_eq_none h
  simp [kstream.read_u1, hn]

/-- What `parse` leaves behind on any input of three or more bytes: the two
byte strings and the sub-stream are assigned, then the read of the type byte
finds the stream at its end. -/
theorem parse_of_three_or_more (self : dot11_ie_221_vendor) (input : List Byte)
    (h : 3 ≤ input.length) :
    self.parse (kstream.of_bytes input) =
      { result := .error .end_of_stream,
        self := { m_vendor_oui := input.take 3,
                  m_vendor_tag := input.drop 3,
                  m_vendor_tag_stream := some (kstream.of_bytes (input.drop 3)),
                  m_vendor_oui_type := self.m_vendor_oui_type },
        p_io := { data := input, pos := input.length } } := by
  unfold dot11_ie_221_vendor.parse
  rw [kstream_read_bytes_three input h]
  simp only [kstream.read_bytes_full]
  rw [max_eq_right h, kstream_read_u1_at_end input input.length (le_refl _)]

/-- C8: on the four input bytes 00 50 f2 01 read from position 0, `parse`
ends with an end-of-stream error raised by `read_u1`; vendor_oui_type keeps
its previous value 0 instead of input byte 3 (which is 1), and the stream is
left at position 4, not 3. -/
theorem parse_oui_type_not_read :
    let self0 : dot11_ie_221_vendor :=
      { m_vendor_oui := [], m_vendor_tag := [], m_vendor_tag_stream := none,
        m_vendor_oui_type := 0 }
    let input : List Byte := [0x00, 0x50, 0xf2, 0x01]
    let out := self0.parse (kstream.of_bytes input)
    out.result = .error .end_of_stream ∧
    out.self.m_vendor_oui_type = 0 ∧
    input[3]? = some 1 ∧
    out.self.m_vendor_oui_type ≠ 1 ∧
    out.p_io.pos = 4 ∧ out.p_io.pos ≠ 3 := by
  intro self0 input out
  exact ⟨rfl, rfl, rfl, by decide, rfl, by decide⟩

/-- C10: for every input of at least 3 bytes in a stream positioned at 0,
`parse` stores the first 3 bytes as vendor_oui and the bytes from offset 3 to
the end as vendor_tag, so vendor_oui ++ vendor_tag is the input and vendor_tag
has length(input) - 3 bytes; vendor_tag_stream is a fresh stream (position 0)
over exactly vendor_tag. -/
theorem parse_partitions_input (self : dot11_ie_221_vendor) (input : List Byte)
    (h : 3 ≤ input.length) :
    let out := self.parse (kstream.of_bytes input)
    out.self.m_vendor_oui = input.take 3 ∧
    out.self.m_vendor_oui.length = 3 ∧
    out.self.m_vendor_tag = input.drop 3 ∧
    out.self.m_vendor_oui ++ out.self.m_vendor_tag = input ∧
    out.self.m_vendor_tag.length = input.length - 3 ∧
    out.self.m_vendor_tag_stream =
      some { data := out.self.m_vendor_tag, pos := 0 } := by
  intro out
  have hp : out = _ := parse_of_three_or_more self input h
  rw [hp]
  refine ⟨rfl, ?_, rfl, ?_, ?_, rfl⟩
  · simp [List.length_take, h]
  · exact List.take_append_drop 3 input
  · simp [List.length_drop]

theorem parse_partitions_input_witness :
    let self0 : dot11_ie_221_vendor :=
      { m_vendor_oui := [], m_vendor_tag := [], m_vendor_tag_stream := none,
        m_vendor_oui_type := 0 }
    let input : List Byte := [0x00, 0x50, 0xf2, 0x01, 0x07]
    3 ≤ input.length ∧
    (self0.parse (kstream.of_bytes input)).self.m_vendor_oui = [0x00, 0x50, 0xf2] ∧
    (self0.parse (kstream.of_bytes input)).self.m_vendor_tag = [0x01, 0x07] :=
  ⟨by decide,
   (parse_partitions_input
      { m_vendor_oui := [], m_vendor_tag := [], m_vendor_tag_stream := none,
        m_vendor_oui_type := 0 }
      [0x00, 0x50, 0xf2, 0x01, 0x07] (by decide)).1,
   (parse_partitions_input
      { m_vendor_oui := [], m_vendor_tag := [], m_vendor_tag_stream := none,
        m_vendor_oui_type := 0 }
      [0x00, 0x50, 0xf2, 0x01, 0x07] (by decide)).2.2.1⟩

/-! ### Associative containers -/

theorem map_find_append {κ α : Type} [DecidableEq κ] (m n : List (κ × α)) (k : κ) :
    map_find (m ++ n) k =
      match map_find m k with
      | some v => some v
      | none => map_find n k := by
  induction m with
  | nil => simp [map_find]
  | cons e m ih =>
    obtain ⟨k', v⟩ := e
    by_cases hk : k' = k
    · simp [map_find, hk]
    · simp [map_find, hk, ih]

theorem map_find_erase {κ α : Type} [DecidableEq κ] (m : List (κ × α)) (k k' : κ) :
    map_find (map_erase m k) k' = if k' = k then none else map_find m k' := by
  induction m with
  | nil => simp [map_find, map_erase]
  | cons e m ih =>
    obtain ⟨k0, v⟩ := e
    unfold map_erase at ih ⊢
    by_cases h0 : k0 = k
    · subst h0
      by_cases h1 : k' = k0
      · subst h1
        simpa [List.filter_cons, map_find] using ih
      · have h2 : ¬ k0 = k' := fun h => h1 h.symm
        simpa [List.filter_cons, map_find, h1, h2] using ih
    · by_cases h1 : k' = k
      · subst h1
        simpa [List.filter_cons, map_find, h0] using ih
      · by_cases h2 : k0 = k'
        · simp [List.filter_cons, map_find, h0, h1, h2]
        · simpa [List.filter_cons, map_find, h0, h1, h2] using ih

theorem map_find_set {κ α : Type} [DecidableEq κ] (m : List (κ × α)) (k : κ) (v : α)
    (k' : κ) :
    map_find (map_set m k v) k' = if k' = k then some v else map_find m k' := by
  unfold map_set
  rw [map_find_append, map_find_erase]
  by_cases h : k' = k
  · subst h
    simp [map_find]
  · have h2 : ¬ k = k' := fun e => h e.symm
    simp only [h, if_false]
    cases hm : map_find m k' with
    | none => simp [map_find, h2]
    | some x => rfl

/-! ### devicelist_scope_locker -/

/-- C3: for every tracker t, passed as a raw pointer or as a shared pointer,
constructing the scope locker makes exactly one call, lock_devicelist on t,
and destroying it makes exactly one call, unlock_devicelist on t, whatever
state w2 the scope ends in; no other tracker's lock is touched, and when the
scope's body leaves the depth of t as the constructor set it, the depth after
the destructor is the depth before the constructor. -/
theorem devicelist_scope_locker_balanced (w : devicelist_locks) (t : TrackerRef) :
    (∃ w1 l, devicelist_scope_locker.construct_raw w (some t) = some (w1, l) ∧
      w1.calls = w.calls ++ [.lock_devicelist t] ∧
      w1.depth t = w.depth t + 1 ∧
      (∀ u, u ≠ t → w1.depth u = w.depth u) ∧
      (∀ w2 : devicelist_locks,
        (l.destroy w2).calls = w2.calls ++ [.unlock_devicelist t] ∧
        (l.destroy w2).depth t = w2.depth t - 1 ∧
        (∀ u, u ≠ t → (l.destroy w2).depth u = w2.depth u) ∧
        (w2.depth t = w1.depth t → (l.destroy w2).depth t = w.depth t)) ∧
      (l.destroy w1).calls =
        w.calls ++ [.lock_devicelist t, .unlock_devicelist t] ∧
      (l.destroy w1).depth = w.depth) ∧
    (∃ w1 l, devicelist_scope_locker.construct_shared w (some t) = some (w1, l) ∧
      w1.calls = w.calls ++ [.lock_devicelist t] ∧
      w1.depth t = w.depth t + 1 ∧
      (∀ u, u ≠ t → w1.depth u = w.depth u) ∧
      (∀ w2 : devicelist_locks,
        (l.destroy w2).calls = w2.calls ++ [.unlock_devicelist t] ∧
        (l.destroy w2).depth t = w2.depth t - 1 ∧
        (∀ u, u ≠ t → (l.destroy w2).depth u = w2.depth u) ∧
        (w2.depth t = w1.depth t → (l.destroy w2).depth t = w.depth t)) ∧
      (l.destroy w1).calls =
        w.calls ++ [.lock_devicelist t, .unlock_devicelist t] ∧
      (l.destroy w1).depth = w.depth) := by
  have hdepth : (unlock_devicelist (lock_devicelist w t) t).depth = w.depth := by
    funext u
    by_cases hu : u = t
    · subst hu
      simp [unlock_devicelist, lock_devicelist]
    · simp [unlock_devicelist, lock_devicelist, Function.update_noteq hu]
  have hstep : ∀ w2 : devicelist_locks,
      (unlock_devicelist w2 t).calls = w2.calls ++ [.unlock_devicelist t] ∧
      (unlock_devicelist w2 t).depth t = w2.depth t - 1 ∧
      (∀ u, u ≠ t → (unlock_devicelist w2 t).depth u = w2.depth u) ∧
      (w2.depth t = (lock_devicelist w t).depth t →
        (unlock_devicelist w2 t).depth t = w.depth t) := by
    intro w2
    refine ⟨rfl, by simp [unlock_devicelist], ?_, ?_⟩
    · intro u hu
      simp [unlock_devicelist, Function.update_noteq hu]
    · intro h
      simp [unlock_devicelist, lock_devicelist] at h ⊢
      omega
  have hlock : ∀ u, u ≠ t → (lock_devicelist w t).depth u = w.depth u := by
    intro u hu
    simp [lock_devicelist, Function.update_noteq hu]
  constructor
  · refine ⟨lock_devicelist w t, { tracker := some t, sharedtracker := none },
      rfl, rfl, by simp [lock_devicelist], hlock, hstep, ?_, hdepth⟩
    simp [devicelist_scope_locker.destroy, unlock_devicelist, lock_devicelist]
  · refine ⟨lock_devicelist w t, { tracker := none, sharedtracker := some t },
      rfl, rfl, by simp [lock_devicelist], hlock, hstep, ?_, hdepth⟩
    simp [devicelist_scope_locker.destroy, unlock_devicelist, lock_devicelist]

/-! ### create_device_tracker -/

/-- C9: create_device_tracker(reg) returns the tracker t it was given by the
constructor; afterwards reg.devicetracker is t, t has been added to the
lifetime globals, the global stored under global_name(), the string
"DEVICETRACKER", is t, and the global stored under every other name is what
it was before. -/
theorem create_device_tracker_publishes (reg : global_registry) (mon : TrackerRef) :
    (create_device_tracker reg mon).1 = mon ∧
    (create_device_tracker reg mon).2.devicetracker = some mon ∧
    (create_device_tracker reg mon).2.lifetime_vec = reg.lifetime_vec ++ [mon] ∧
    mon ∈ (create_device_tracker reg mon).2.lifetime_vec ∧
    global_name = "DEVICETRACKER" ∧
    (create_device_tracker reg mon).2.fetch_global global_name = some mon ∧
    (∀ name, name ≠ global_name →
      (create_device_tracker reg mon).2.fetch_global name =
        reg.fetch_global name) := by
  refine ⟨rfl, rfl, rfl, ?_, rfl, ?_, ?_⟩
  · simp [create_device_tracker, global_registry.insert_global,
      global_registry.register_lifetime_global]
  · simp [create_device_tracker, global_registry.insert_global,
      global_registry.fetch_global, map_find_set]
  · intro name hn
    simp [create_device_tracker, global_registry.insert_global,
      global_registry.register_lifetime_global,
      global_registry.fetch_global, map_find_set, hn]

/-! ### PHY registry -/

theorem fetch_by_name_none_iff (s : device_tracker) (name : String) :
    fetch_phy_handler_by_name s name = none ↔
      ∀ e ∈ s.phy_handler_map, e.2.phyname ≠ name := by
  unfold fetch_phy_handler_by_name
  simp [List.find?_eq_none]

theorem register_phy_handler_fresh (s : device_tracker) (h : kis_phy_handler)
    (hn : fetch_phy_handler_by_name s h.phyname = none) :
    register_phy_handler s h =
      (.ok s.next_phy_id,
        { s with
          next_phy_id := s.next_phy_id + 1
          phy_handler_map :=
            map_set s.phy_handler_map s.next_phy_id
              { h with phyid := s.next_phy_id }
          eventbus :=
            s.eventbus ++ [.NEW_PHY { h with phyid := s.next_phy_id }] }) := by
  simp [register_phy_handler, hn]

theorem register_phy_handler_dup (s : device_tracker) (h : kis_phy_handler)
    (hn : fetch_phy_handler_by_name s h.phyname ≠ none) :
    register_phy_handler s h = (.error .DuplicateName, s) := by
  unfold register_phy_handler
  cases hf : fetch_phy_handler_by_name s h.phyname with
  | none => exact absurd hf hn
  | some x => rfl

theorem register_next_phy_id_le (s : device_tracker) (h : kis_phy_handler) :
    s.next_phy_id ≤ (register_phy_handler s h).2.next_phy_id := by
  by_cases hn : fetch_phy_handler_by_name s h.phyname = none
  · rw [register_phy_handler_fresh s h hn]
    simp
  · rw [register_phy_handler_dup s h hn]

theorem register_run_next_phy_id_le (hs : List kis_phy_handler) :
    ∀ s : device_tracker,
      s.next_phy_id ≤ (register_phy_handlers s hs).1.next_phy_id := by
  induction hs with
  | nil => intro s; exact le_refl _
  | cons h hs ih =>
    intro s
    exact le_trans (register_next_phy_id_le s h) (ih _)

theorem register_run_ids_bounds (hs : List kis_phy_handler) :
    ∀ s : device_tracker, ∀ id ∈ returned_ids (register_phy_handlers s hs).2,
      s.next_phy_id ≤ id ∧ id < (register_phy_handlers s hs).1.next_phy_id := by
  induction hs with
  | nil => intro s id hid; simp [register_phy_handlers, returned_ids] at hid
  | cons h hs ih =>
    intro s id hid
    have hle := register_run_next_phy_id_le hs (register_phy_handler s h).2
    have hih := ih (register_phy_handler s h).2 id
    simp only [register_phy_handlers] at hid ⊢
    by_cases hn : fetch_phy_handler_by_name s h.phyname = none
    · have h1 : (register_phy_handler s h).1 = .ok s.next_phy_id := by
        rw [register_phy_handler_fresh s h hn]
      have h2 : (register_phy_handler s h).2.next_phy_id = s.next_phy_id + 1 := by
        rw [register_phy_handler_fresh s h hn]
      rw [h1] at hid
      simp only [returned_ids, List.mem_cons] at hid
      rcases hid with rfl | hid
      · exact ⟨le_refl _, by omega⟩
      · have := hih hid
        exact ⟨by omega, this.2⟩
    · have h1 : (register_phy_handler s h).1 = .error .DuplicateName := by
        rw [register_phy_handler_dup s h hn]
      have h2 : (register_phy_handler s h).2 = s := by
        rw [register_phy_handler_dup s h hn]
      rw [h1] at hid
      simp only [returned_ids] at hid
      have := hih hid
      rw [h2] at this ⊢
      exact this

theorem register_run_ids_increasing (hs : List kis_phy_handler) :
    ∀ s : device_tracker,
      (returned_ids (register_phy_handlers s hs).2).Pairwise (fun a b => a < b) := by
  induction hs with
  | nil => intro s; simp [register_phy_handlers, returned_ids]
  | cons h hs ih =>
    intro s
    have hih := ih (register_phy_handler s h).2
    have hb := register_run_ids_bounds hs (register_phy_handler s h).2
    simp only [register_phy_handlers]
    by_cases hn : fetch_phy_handler_by_name s h.phyname = none
    · have h1 : (register_phy_handler s h).1 = .ok s.next_phy_id := by
        rw [register_phy_handler_fresh s h hn]
      have h2 : (register_phy_handler s h).2.next_phy_id = s.next_phy_id + 1 := by
        rw [register_phy_handler_fresh s h hn]
      rw [h1]
      simp only [returned_ids, List.pairwise_cons]
      refine ⟨?_, hih⟩
      intro id hid
      have := (hb id hid).1
      omega
    · have h1 : (register_phy_handler s h).1 = .error .DuplicateName := by
        rw [register_phy_handler_dup s h hn]
      rw [h1]
      simp only [returned_ids]
      exact hih

theorem register_keeps_lower_ids (s : device_tracker) (h : kis_phy_handler)
    (id : Int) (hid : id < s.next_phy_id) :
    fetch_phy_handler (register_phy_handler s h).2 id = fetch_phy_handler s id := by
  by_cases hn : fetch_phy_handler_by_name s h.phyname = none
  · rw [register_phy_handler_fresh s h hn]
    have hne : id ≠ s.next_phy_id := by omega
    simp [fetch_phy_handler, map_find_set, hne]
  · rw [register_phy_handler_dup s h hn]

theorem register_run_keeps_lower_ids (hs : List kis_phy_handler) :
    ∀ (s : device_tracker) (id : Int), id < s.next_phy_id →
      fetch_phy_handler (register_phy_handlers s hs).1 id =
        fetch_phy_handler s id := by
  induction hs with
  | nil => intro s id _; rfl
  | cons h hs ih =>
    intro s id hid
    have h1 := register_next_phy_id_le s h
    simp only [register_phy_handlers]
    rw [ih _ id (by omega), register_keeps_lower_ids s h id hid]

theorem register_run_fetch (hs : List kis_phy_handler) :
    ∀ (s : device_tracker) (i : Nat) (h : kis_phy_handler) (id : Int),
      hs[i]? = some h → (register_phy_handlers s hs).2[i]? = some (.ok id) →
      fetch_phy_handler (register_phy_handlers s hs).1 id =
        some { h with phyid := id } := by
  induction hs with
  | nil => intro s i h id hi; simp at hi
  | cons h0 hs ih =>
    intro s i h id hi hr
    cases i with
    | zero =>
      simp only [List.getElem?_cons_zero, Option.some.injEq] at hi
      subst hi
      simp only [register_phy_handlers, List.getElem?_cons_zero,
        Option.some.injEq] at hr ⊢
      by_cases hn : fetch_phy_handler_by_name s h0.phyname = none
      · have h1 : (register_phy_handler s h0).1 = .ok s.next_phy_id := by
          rw [register_phy_handler_fresh s h0 hn]
        have h2 : (register_phy_handler s h0).2.next_phy_id = s.next_phy_id + 1 := by
          rw [register_phy_handler_fresh s h0 hn]
        have h3 : fetch_phy_handler (register_phy_handler s h0).2 s.next_phy_id =
            some { h0 with phyid := s.next_phy_id } := by
          rw [register_phy_handler_fresh s h0 hn]
          simp [fetch_phy_handler, map_find_set]
        rw [h1] at hr
        simp only [Except.ok.injEq] at hr
        subst hr
        rw [register_run_keeps_lower_ids hs _ _ (by omega)]
        exact h3
      · have h1 : (register_phy_handler s h0).1 = .error .DuplicateName := by
          rw [register_phy_handler_dup s h0 hn]
        rw [h1] at hr
        cases hr
    | succ j =>
      simp only [List.getElem?_cons_succ] at hi
      simp only [register_phy_handlers, List.getElem?_cons_succ] at hr ⊢
      exact ih _ j h id hi hr

/-- Three registrations on a tracker without PHYs whose first id is 0: two
new names get ids 0 and 1, the repeated name fails, and both ids fetch their
handler afterwards. -/
theorem register_phy_handlers_scenario :
    (register_phy_handlers (device_tracker.empty 60 5 100 0 0)
        [⟨"IEEE802.11", -1⟩, ⟨"Bluetooth", -1⟩, ⟨"IEEE802.11", -1⟩]).2 =
      [.ok 0, .ok 1, .error .DuplicateName] ∧
    fetch_phy_handler
        (register_phy_handlers (device_tracker.empty 60 5 100 0 0)
          [⟨"IEEE802.11", -1⟩, ⟨"Bluetooth", -1⟩, ⟨"IEEE802.11", -1⟩]).1 0 =
      some ⟨"IEEE802.11", 0⟩ ∧
    fetch_phy_handler
        (register_phy_handlers (device_tracker.empty 60 5 100 0 0)
          [⟨"IEEE802.11", -1⟩, ⟨"Bluetooth", -1⟩, ⟨"IEEE802.11", -1⟩]).1 1 =
      some ⟨"Bluetooth", 1⟩ :=
  ⟨rfl, rfl, rfl⟩

/-- C6: register_phy_handler hands out ids monotonically and never reuses
one.  A call with an unregistered name returns next_phy_id, advances
next_phy_id by one, stores the handler under the returned id (fetch_phy_handler
finds it) and publishes NEW_PHY; a call with a name that is already registered
fails with DuplicateName and leaves the tracker, next_phy_id included, as it
was.  In every run of calls the ids returned are strictly increasing in call
order, and at the end of the run each returned id still fetches the handler
registered under it. -/
theorem register_phy_handler_ids_monotonic (s : device_tracker)
    (hs : List kis_phy_handler) :
    (∀ h : kis_phy_handler,
      (∀ e ∈ s.phy_handler_map, e.2.phyname ≠ h.phyname) →
      (register_phy_handler s h).1 = .ok s.next_phy_id ∧
      (register_phy_handler s h).2.next_phy_id = s.next_phy_id + 1 ∧
      fetch_phy_handler (register_phy_handler s h).2 s.next_phy_id =
        some { h with phyid := s.next_phy_id } ∧
      (register_phy_handler s h).2.eventbus =
        s.eventbus ++ [.NEW_PHY { h with phyid := s.next_phy_id }] ∧
      (∃ e ∈ (register_phy_handler s h).2.phy_handler_map,
        e.2.phyname = h.phyname)) ∧
    (∀ h : kis_phy_handler,
      (∃ e ∈ s.phy_handler_map, e.2.phyname = h.phyname) →
      register_phy_handler s h = (.error .DuplicateName, s)) ∧
    (returned_ids (register_phy_handlers s hs).2).Pairwise (fun a b => a < b) ∧
    (∀ id ∈ returned_ids (register_phy_handlers s hs).2,
      s.next_phy_id ≤ id ∧ id < (register_phy_handlers s hs).1.next_phy_id) ∧
    (∀ (i : Nat) (h : kis_phy_handler) (id : Int),
      hs[i]? = some h → (register_phy_handlers s hs).2[i]? = some (.ok id) →
      fetch_phy_handler (register_phy_handlers s hs).1 id =
        some { h with phyid := id }) := by
  refine ⟨?_, ?_, register_run_ids_increasing hs s, register_run_ids_bounds hs s,
    register_run_fetch hs s⟩
  · intro h hfree
    have hn := (fetch_by_name_none_iff s h.phyname).mpr hfree
    rw [register_phy_handler_fresh s h hn]
    refine ⟨rfl, rfl, ?_, rfl, ?_⟩
    · simp [fetch_phy_handler, map_find_set]
    · exact ⟨(s.next_phy_id, { h with phyid := s.next_phy_id }),
        by simp [map_set], rfl⟩
  · intro h hdup
    apply register_phy_handler_dup
    intro hn
    obtain ⟨e, he, hname⟩ := hdup
    exact (fetch_by_name_none_iff s h.phyname).mp hn e he hname

/-! ### Device index: AddDevice -/

theorem AddDevice_present (s : device_tracker) (device x : DevRef)
    (hf : fetch_device s (s.devices device).key = some x) :
    AddDevice s device = (.error .Duplicate, s) := by
  simp only [AddDevice, hf]

theorem AddDevice_result (s : device_tracker) (device : DevRef)
    (hf : fetch_device s (s.devices device).key = none) :
    (AddDevice s device).1 = .ok s.immutable_tracked_vec.length := by
  simp only [AddDevice, hf]

theorem AddDevice_fetch (s : device_tracker) (device : DevRef)
    (hf : fetch_device s (s.devices device).key = none) (k : device_key) :
    fetch_device (AddDevice s device).2 k =
      if k = (s.devices device).key then some device else fetch_device s k := by
  simp only [AddDevice, hf]
  simp only [fetch_device, map_find_set]

theorem AddDevice_devices (s : device_tracker) (device : DevRef)
    (hf : fetch_device s (s.devices device).key = none) :
    (AddDevice s device).2.devices =
      Function.update s.devices device
        { s.devices device with ordinal := s.immutable_tracked_vec.length } := by
  simp only [AddDevice, hf]

theorem AddDevice_multimap (s : device_tracker) (device : DevRef)
    (hf : fetch_device s (s.devices device).key = none) :
    (AddDevice s device).2.tracked_mac_multimap =
      s.tracked_mac_multimap ++ [((s.devices device).mac, device)] := by
  simp only [AddDevice, hf]

theorem AddDevice_immutable (s : device_tracker) (device : DevRef)
    (hf : fetch_device s (s.devices device).key = none) :
    (AddDevice s device).2.immutable_tracked_vec =
      s.immutable_tracked_vec ++ [some device] := by
  simp only [AddDevice, hf]

theorem AddDevice_vec (s : device_tracker) (device : DevRef)
    (hf : fetch_device s (s.devices device).key = none) :
    (AddDevice s device).2.tracked_vec = s.tracked_vec ++ [device] := by
  simp only [AddDevice, hf]

theorem getElem?_some_lt {α : Type} (l : List α) (i : Nat) (x : α)
    (h : l[i]? = some x) : i < l.length := by
  by_contra hlt
  rw [List.getElem?_eq_none (Nat.le_of_not_lt hlt)] at h
  cases h

theorem AddDevice_consistent (s : device_tracker) (device : DevRef)
    (h : index_consistent s) : index_consistent (AddDevice s device).2 := by
  cases hf : fetch_device s (s.devices device).key with
  | some x => rw [AddDevice_present s device x hf]; exact h
  | none =>
    obtain ⟨h1, h2⟩ := h
    have hne : ∀ k r, fetch_device s k = some r → r ≠ device := by
      intro k r hk hr
      subst hr
      rw [(h1 k r hk).1, hk] at hf
      cases hf
    constructor
    · intro k r hk
      rw [AddDevice_fetch s device hf] at hk
      rw [AddDevice_devices s device hf, AddDevice_multimap s device hf,
        AddDevice_immutable s device hf]
      by_cases hkey : k = (s.devices device).key
      · rw [if_pos hkey] at hk
        cases hk
        simp only [Function.update_same]
        refine ⟨hkey.symm, by simp, ?_⟩
        simp
      · rw [if_neg hkey] at hk
        have hr := hne k r hk
        obtain ⟨ha, hb, hc⟩ := h1 k r hk
        rw [Function.update_noteq hr]
        refine ⟨ha, List.mem_append_left _ hb, ?_⟩
        rw [List.getElem?_append_left (getElem?_some_lt _ _ _ hc)]
        exact hc
    · intro r
      rw [AddDevice_vec s device hf]
      constructor
      · intro hr
        rcases List.mem_append.mp hr with hr | hr
        · obtain ⟨k, hk⟩ := (h2 r).mp hr
          refine ⟨k, ?_⟩
          rw [AddDevice_fetch s device hf]
          have hkey : k ≠ (s.devices device).key := by
            intro e
            rw [e, hf] at hk
            cases hk
          rw [if_neg hkey]
          exact hk
        · have : r = device := by simpa using hr
          subst this
          refine ⟨(s.devices r).key, ?_⟩
          rw [AddDevice_fetch s r hf, if_pos rfl]
      · rintro ⟨k, hk⟩
        rw [AddDevice_fetch s device hf] at hk
        by_cases hkey : k = (s.devices device).key
        · rw [if_pos hkey] at hk
          cases hk
          simp
        · rw [if_neg hkey] at hk
          exact List.mem_append_left _ ((h2 r).mpr ⟨k, hk⟩)

/-! ### Device index: remove_device -/

theorem remove_device_absent (s : device_tracker) (key : device_key) (now : Int)
    (hf : fetch_device s key = none) :
    remove_device s key now = (.error .NotFound, s) := by
  simp only [remove_device, hf]

theorem remove_device_fetch (s : device_tracker) (key : device_key) (now : Int)
    (k : device_key) :
    fetch_device (remove_device s key now).2 k =
      if k = key then none else fetch_device s k := by
  cases hf : fetch_device s key with
  | none =>
    rw [remove_device_absent s key now hf]
    by_cases hk : k = key
    · rw [if_pos hk, hk, hf]
    · rw [if_neg hk]
  | some r =>
    simp only [remove_device, hf, update_full_refresh]
    simp only [fetch_device, map_find_erase]

theorem remove_device_devices (s : device_tracker) (key : device_key) (now : Int) :
    (remove_device s key now).2.devices = s.devices := by
  cases hf : fetch_device s key with
  | none => rw [remove_device_absent s key now hf]
  | some r => simp only [remove_device, hf, update_full_refresh]

theorem remove_device_multimap (s : device_tracker) (key : device_key) (now : Int)
    (r : DevRef) (hf : fetch_device s key = some r) :
    (remove_device s key now).2.tracked_mac_multimap =
      s.tracked_mac_multimap.filter
        (fun e => decide (¬ (e.1 = (s.devices r).mac ∧ e.2 = r))) := by
  simp only [remove_device, hf, update_full_refresh]

theorem remove_device_immutable (s : device_tracker) (key : device_key) (now : Int)
    (r : DevRef) (hf : fetch_device s key = some r) :
    (remove_device s key now).2.immutable_tracked_vec =
      s.immutable_tracked_vec.set (s.devices r).ordinal none := by
  simp only [remove_device, hf, update_full_refresh]

theorem remove_device_vec (s : device_tracker) (key : device_key) (now : Int)
    (r : DevRef) (hf : fetch_device s key = some r) :
    (remove_device s key now).2.tracked_vec =
      s.tracked_vec.filter (fun x => decide (x ≠ r)) := by
  simp only [remove_device, hf, update_full_refresh]

theorem remove_device_consistent (s : device_tracker) (key : device_key) (now : Int)
    (h : index_consistent s) : index_consistent (remove_device s key now).2 := by
  cases hf : fetch_device s key with
  | none => rw [remove_device_absent s key now hf]; exact h
  | some r0 =>
    obtain ⟨h1, h2⟩ := h
    obtain ⟨hk0, _, ho0⟩ := h1 key r0 hf
    have hne : ∀ k r, k ≠ key → fetch_device s k = some r → r ≠ r0 := by
      intro k r hk hr e
      subst e
      exact hk ((h1 k r hr).1.symm.trans hk0)
    constructor
    · intro k r hk
      rw [remove_device_fetch] at hk
      by_cases hkey : k = key
      · rw [if_pos hkey] at hk
        cases hk
      · rw [if_neg hkey] at hk
        obtain ⟨ha, hb, hc⟩ := h1 k r hk
        have hr := hne k r hkey hk
        rw [remove_device_devices, remove_device_multimap s key now r0 hf,
          remove_device_immutable s key now r0 hf]
        refine ⟨ha, ?_, ?_⟩
        · rw [List.mem_filter]
          refine ⟨hb, ?_⟩
          simp [hr]
        · have hord : (s.devices r0).ordinal ≠ (s.devices r).ordinal := by
            intro e
            rw [e, hc] at ho0
            simp only [Option.some.injEq] at ho0
            exact hr ho0
          rw [List.getElem?_set_ne hord]
          exact hc
    · intro r
      rw [remove_device_vec s key now r0 hf, List.mem_filter]
      constructor
      · rintro ⟨hr, hd⟩
        have hd : r ≠ r0 := by simpa using hd
        obtain ⟨k, hk⟩ := (h2 r).mp hr
        refine ⟨k, ?_⟩
        rw [remove_device_fetch]
        have hkey : k ≠ key := by
          intro e
          rw [e, hf] at hk
          simp only [Option.some.injEq] at hk
          exact hd hk.symm
        rw [if_neg hkey]
        exact hk
      · rintro ⟨k, hk⟩
        rw [remove_device_fetch] at hk
        by_cases hkey : k = key
        · rw [if_pos hkey] at hk
          cases hk
        · rw [if_neg hkey] at hk
          refine ⟨(h2 r).mpr ⟨k, hk⟩, ?_⟩
          simp [hne k r hkey hk]

/-! ### Idle-timeout sweep -/

theorem idle_sweep_step_devices (now : Int) (s : device_tracker) (r : DevRef) :
    (idle_sweep_step now s r).devices = s.devices := by
  unfold idle_sweep_step
  split
  · exact remove_device_devices _ _ _
  · rfl

theorem idle_sweep_step_consistent (now : Int) (s : device_tracker) (r : DevRef)
    (h : index_consistent s) : index_consistent (idle_sweep_step now s r) := by
  unfold idle_sweep_step
  split
  · exact remove_device_consistent _ _ _ h
  · exact h

theorem idle_sweep_fold_devices (now : Int) (L : List DevRef) :
    ∀ s : device_tracker, (L.foldl (idle_sweep_step now) s).devices = s.devices := by
  induction L with
  | nil => intro s; rfl
  | cons x L ih =>
    intro s
    rw [List.foldl_cons, ih, idle_sweep_step_devices]

theorem idle_sweep_fold_consistent (now : Int) (L : List DevRef) :
    ∀ s : device_tracker, index_consistent s →
      index_consistent (L.foldl (idle_sweep_step now) s) := by
  induction L with
  | nil => intro s h; exact h
  | cons x L ih =>
    intro s h
    rw [List.foldl_cons]
    exact ih _ (idle_sweep_step_consistent now s x h)

theorem index_consistent_of_no_device (s : device_tracker)
    (h1 : s.tracked_map = []) (h2 : s.tracked_vec = []) : index_consistent s := by
  constructor
  · intro k r hk
    simp [fetch_device, h1, map_find] at hk
  · intro r
    simp [fetch_device, h1, h2, map_find]

/-! ### Device index: the invariant -/

theorem remove_fold_consistent (now : Int) (keys : List device_key) :
    ∀ s : device_tracker, index_consistent s →
      index_consistent (keys.foldl (fun st k => (remove_device st k now).2) s) := by
  induction keys with
  | nil => intro s h; exact h
  | cons k ks ih =>
    intro s h
    rw [List.foldl_cons]
    exact ih _ (remove_device_consistent s k now h)

theorem scenario_tracker_consistent : index_consistent scenario_tracker :=
  AddDevice_consistent _ 0 (index_consistent_of_no_device _ rfl rfl)

/-- C5: index consistency (every device of the primary map is stored under
its own key, is among the MAC multimap entries of its MAC and sits in the
ordinal vector at its ordinal) is preserved by AddDevice, by the removal of a
key, by any sequence of removals and by the idle-timeout sweep.  A removal sets the removed device's slot
of the ordinal vector to null and leaves the vector's length and every other
slot as they were; an insert leaves every existing slot and every indexed
device's ordinal as they were and gives the new device the next ordinal.
Consistency says of every device d of the index that the primary map maps
d.key to d, d is among the multimap entries of d.mac and the ordinal vector
holds d at d.ordinal. -/
theorem index_consistency_preserved (s : device_tracker) (h : index_consistent s)
    (device : DevRef) (key : device_key) (now : Int) :
    index_consistent (AddDevice s device).2 ∧
    index_consistent (remove_device s key now).2 ∧
    index_consistent (idle_timeout_sweep s now) ∧
    (∀ keys : List device_key,
      index_consistent (keys.foldl (fun st k => (remove_device st k now).2) s)) ∧
    (∀ r, fetch_device s key = some r →
      fetch_device (remove_device s key now).2 key = none ∧
      (remove_device s key now).2.immutable_tracked_vec[(s.devices r).ordinal]? =
        some none ∧
      (remove_device s key now).2.immutable_tracked_vec.length =
        s.immutable_tracked_vec.length ∧
      (∀ i, i ≠ (s.devices r).ordinal →
        (remove_device s key now).2.immutable_tracked_vec[i]? =
          s.immutable_tracked_vec[i]?)) ∧
    (∀ i, i < s.immutable_tracked_vec.length →
      (AddDevice s device).2.immutable_tracked_vec[i]? =
        s.immutable_tracked_vec[i]?) ∧
    (∀ k r, fetch_device s k = some r →
      fetch_device (AddDevice s device).2 k = some r ∧
      ((AddDevice s device).2.devices r).ordinal = (s.devices r).ordinal) ∧
    (fetch_device s (s.devices device).key = none →
      (AddDevice s device).1 = .ok s.immutable_tracked_vec.length ∧
      fetch_device (AddDevice s device).2 (s.devices device).key = some device ∧
      ((AddDevice s device).2.devices device).ordinal =
        s.immutable_tracked_vec.length) ∧
    (∀ k r, fetch_device s k = some r →
      fetch_device s (s.devices r).key = some r ∧
      ((s.devices r).mac, r) ∈ s.tracked_mac_multimap ∧
      s.immutable_tracked_vec[(s.devices r).ordinal]? = some (some r)) := by
  refine ⟨AddDevice_consistent s device h, remove_device_consistent s key now h,
    idle_sweep_fold_consistent now _ s h,
    fun keys => remove_fold_consistent now keys s h, ?_, ?_, ?_, ?_, ?_⟩
  rotate_left 4
  · intro k r hk
    obtain ⟨ha, hb, hc⟩ := h.1 k r hk
    exact ⟨by rw [ha]; exact hk, hb, hc⟩
  · intro r hf
    have ho := (h.1 key r hf).2.2
    rw [remove_device_fetch, if_pos rfl, remove_device_immutable s key now r hf]
    refine ⟨rfl, ?_, List.length_set _ _ _, ?_⟩
    · rw [List.getElem?_set_self (getElem?_some_lt _ _ _ ho)]
    · intro i hi
      rw [List.getElem?_set_ne (Ne.symm hi)]
  · intro i hi
    cases hf : fetch_device s (s.devices device).key with
    | some x => rw [AddDevice_present s device x hf]
    | none =>
      rw [AddDevice_immutable s device hf, List.getElem?_append_left hi]
  · intro k r hk
    cases hf : fetch_device s (s.devices device).key with
    | some x => rw [AddDevice_present s device x hf]; exact ⟨hk, rfl⟩
    | none =>
      have hkey : k ≠ (s.devices device).key := by
        intro e
        rw [e, hf] at hk
        cases hk
      have hr : r ≠ device := by
        intro e
        subst e
        exact hkey (h.1 k r hk).1.symm
      rw [AddDevice_fetch s device hf, if_neg hkey, AddDevice_devices s device hf,
        Function.update_noteq hr]
      exact ⟨hk, rfl⟩
  · intro hf
    rw [AddDevice_fetch s device hf, if_pos rfl, AddDevice_devices s device hf,
      Function.update_same]
    exact ⟨AddDevice_result s device hf, rfl, rfl⟩

theorem index_consistency_preserved_witness :
    index_consistent scenario_tracker ∧
    index_consistent (remove_device scenario_tracker scenario_key 1061).2 ∧
    (remove_device scenario_tracker scenario_key 1061).2.immutable_tracked_vec =
      [none] :=
  ⟨scenario_tracker_consistent,
   (index_consistency_preserved scenario_tracker scenario_tracker_consistent
      0 scenario_key 1061).2.1,
   rfl⟩

/-! ### Idle-timeout sweep: removal and watermark -/

theorem merge_common_key (in_flags : Nat) (pack_common : kis_common_info)
    (in_pack : kis_packet) (d : kis_tracked_device_base) :
    (merge_common in_flags pack_common in_pack d).key = d.key := by
  have h1 : ∀ x, (update_signal in_flags pack_common x).key = x.key := by
    intro x; unfold update_signal; split <;> rfl
  have h2 : ∀ x, (update_frequencies in_flags pack_common x).key = x.key := by
    intro x; unfold update_frequencies; split <;> rfl
  have h3 : ∀ x, (update_packets in_flags pack_common x).key = x.key := by
    intro x; unfold update_packets; split <;> rfl
  have h4 : ∀ x, (update_location in_flags in_pack x).key = x.key := by
    intro x; unfold update_location; split <;> rfl
  have h5 : ∀ x, (update_seenby in_flags pack_common in_pack x).key = x.key := by
    intro x; unfold update_seenby; split <;> rfl
  have h6 : ∀ x, (update_encryption in_flags pack_common x).key = x.key := by
    intro x; unfold update_encryption; split <;> rfl
  have h7 : ∀ x, (update_last_seen in_pack x).key = x.key := fun _ => rfl
  unfold merge_common
  rw [h7, h6, h5, h4, h3, h2, h1]

theorem update_existing_fetch (s : device_tracker) (device : DevRef) (in_flags : Nat)
    (pack_common : kis_common_info) (in_pack : kis_packet) (k : device_key) :
    fetch_device (update_existing s device in_flags pack_common in_pack) k =
      fetch_device s k := rfl

theorem update_existing_key (s : device_tracker) (device : DevRef) (in_flags : Nat)
    (pack_common : kis_common_info) (in_pack : kis_packet) :
    ((update_existing s device in_flags pack_common in_pack).devices device).key =
      (s.devices device).key := by
  simp only [update_existing, Function.update_same, merge_common_key]

theorem UpdateCommonDevice_found (s : device_tracker) (pack_common : kis_common_info)
    (in_mac : mac_addr) (phy : kis_phy_handler) (in_pack : kis_packet)
    (in_flags : Nat) (in_basic_type : String) (device : DevRef)
    (hf : fetch_device s
      { phy_id := phy.phyid, mac := in_mac.longmac, key_salt := 0 } = some device) :
    UpdateCommonDevice s pack_common in_mac phy in_pack in_flags in_basic_type =
      (.ok device, update_existing s device in_flags pack_common in_pack) := by
  simp only [UpdateCommonDevice, hf]

theorem UpdateCommonDevice_miss (s : device_tracker) (pack_common : kis_common_info)
    (in_mac : mac_addr) (phy : kis_phy_handler) (in_pack : kis_packet)
    (in_flags : Nat) (in_basic_type : String)
    (hf : fetch_device s
      { phy_id := phy.phyid, mac := in_mac.longmac, key_salt := 0 } = none)
    (hflag : ucd_flag_set in_flags .existing_only = true) :
    UpdateCommonDevice s pack_common in_mac phy in_pack in_flags in_basic_type =
      (.error .NoExistingDevice, s) := by
  simp only [UpdateCommonDevice, hf, hflag, if_true]

theorem UpdateCommonDevice_created (s : device_tracker) (pack_common : kis_common_info)
    (in_mac : mac_addr) (phy : kis_phy_handler) (in_pack : kis_packet)
    (in_flags : Nat) (in_basic_type : String)
    (hf : fetch_device s
      { phy_id := phy.phyid, mac := in_mac.longmac, key_salt := 0 } = none)
    (hflag : ¬ ucd_flag_set in_flags .existing_only = true) :
    (UpdateCommonDevice s pack_common in_mac phy in_pack in_flags in_basic_type).1 =
        .ok s.heap_next ∧
    fetch_device
        (UpdateCommonDevice s pack_common in_mac phy in_pack in_flags in_basic_type).2
        { phy_id := phy.phyid, mac := in_mac.longmac, key_salt := 0 } =
      some s.heap_next ∧
    ((UpdateCommonDevice s pack_common in_mac phy in_pack in_flags
        in_basic_type).2.devices s.heap_next).key =
      { phy_id := phy.phyid, mac := in_mac.longmac, key_salt := 0 } := by
  have hflag' : ucd_flag_set in_flags .existing_only = false := by
    simpa using hflag
  simp only [UpdateCommonDevice, hf, hflag', Bool.false_eq_true, if_false]
  generalize hs1 : ({ s with
      devices := Function.update s.devices s.heap_next
        (new_device_record { phy_id := phy.phyid, mac := in_mac.longmac, key_salt := 0 }
          in_mac phy in_basic_type in_pack.ts)
      heap_next := s.heap_next + 1 } : device_tracker) = s1
  have hkey : (s1.devices s.heap_next).key =
      { phy_id := phy.phyid, mac := in_mac.longmac, key_salt := 0 } := by
    rw [← hs1]
    simp [new_device_record]
  have hf1 : fetch_device s1 (s1.devices s.heap_next).key = none := by
    rw [hkey, ← hs1]
    exact hf
  refine ⟨trivial, ?_, ?_⟩
  · rw [update_existing_fetch]
    show fetch_device (AddDevice s1 s.heap_next).2 _ = _
    rw [AddDevice_fetch s1 _ hf1, hkey, if_pos rfl]
  · rw [update_existing_key]
    simp only [Function.update_same, apply_stored]
    rw [AddDevice_devices s1 _ hf1, Function.update_same]
    exact hkey

/-- C4: UpdateCommonDevice called with UPDATE_EXISTING_ONLY set, for a
(phy, mac) whose key (phy.id, mac, salt = 0) has no device in the index, fails
with NoExistingDevice and returns the tracker unchanged: no device created,
index and counters as before.  In every other case it returns a device, and
that device is the one the index holds under the key afterwards: the device
already there, or a newly created one whose key is the key; on a consistent
index the returned device's key is the key in both cases. -/
theorem UpdateCommonDevice_existing_only (s : device_tracker)
    (pack_common : kis_common_info) (in_mac : mac_addr) (phy : kis_phy_handler)
    (in_pack : kis_packet) (in_flags : Nat) (in_basic_type : String) :
    (ucd_flag_set in_flags .existing_only = true ↔
      in_flags &&& UCD_UPDATE_EXISTING_ONLY ≠ 0) ∧
    ((ucd_flag_set in_flags .existing_only = true ∧
        fetch_device s
          { phy_id := phy.phyid, mac := in_mac.longmac, key_salt := 0 } = none) →
      UpdateCommonDevice s pack_common in_mac phy in_pack in_flags in_basic_type =
        (.error .NoExistingDevice, s)) ∧
    (¬ (ucd_flag_set in_flags .existing_only = true ∧
        fetch_device s
          { phy_id := phy.phyid, mac := in_mac.longmac, key_salt := 0 } = none) →
      ∃ device,
        (UpdateCommonDevice s pack_common in_mac phy in_pack in_flags
          in_basic_type).1 = .ok device ∧
        fetch_device
            (UpdateCommonDevice s pack_common in_mac phy in_pack in_flags
              in_basic_type).2
            { phy_id := phy.phyid, mac := in_mac.longmac, key_salt := 0 } =
          some device ∧
        (fetch_device s
            { phy_id := phy.phyid, mac := in_mac.longmac, key_salt := 0 } =
              some device ∨
          (fetch_device s
              { phy_id := phy.phyid, mac := in_mac.longmac, key_salt := 0 } = none ∧
            ((UpdateCommonDevice s pack_common in_mac phy in_pack in_flags
                in_basic_type).2.devices device).key =
              { phy_id := phy.phyid, mac := in_mac.longmac, key_salt := 0 })) ∧
        (index_consistent s →
          ((UpdateCommonDevice s pack_common in_mac phy in_pack in_flags
              in_basic_type).2.devices device).key =
            { phy_id := phy.phyid, mac := in_mac.longmac, key_salt := 0 })) := by
  refine ⟨?_, ?_, ?_⟩
  · simp [ucd_flag_set, ucd_flag.value]
  · rintro ⟨hflag, hf⟩
    exact UpdateCommonDevice_miss s pack_common in_mac phy in_pack in_flags
      in_basic_type hf hflag
  · intro hnot
    cases hf : fetch_device s
        { phy_id := phy.phyid, mac := in_mac.longmac, key_salt := 0 } with
    | some device =>
      refine ⟨device, ?_⟩
      rw [UpdateCommonDevice_found s pack_common in_mac phy in_pack in_flags
        in_basic_type device hf]
      refine ⟨rfl, ?_, Or.inl rfl, ?_⟩
      · rw [update_existing_fetch]
        exact hf
      · intro hc
        rw [update_existing_key]
        exact (hc.1 _ device hf).1
    | none =>
      have hflag : ¬ ucd_flag_set in_flags .existing_only = true :=
        fun h => hnot ⟨h, hf⟩
      obtain ⟨h1, h2, h3⟩ := UpdateCommonDevice_created s pack_common in_mac phy
        in_pack in_flags in_basic_type hf hflag
      exact ⟨s.heap_next, h1, h2, Or.inr ⟨rfl, h3⟩, fun _ => h3⟩

/-- The existing-only miss of the spec's scenarios: an unknown MAC with
UPDATE_EXISTING_ONLY on the scenario tracker fails and changes nothing; the
same packet without the flag creates the device at the next address; the known
MAC with the flag returns the device already there. -/
theorem UpdateCommonDevice_scenario_miss :
    (UpdateCommonDevice scenario_tracker scenario_common ⟨0x112233445566, 0⟩
        scenario_phy scenario_packet
        (UCD_UPDATE_EXISTING_ONLY ||| UCD_UPDATE_PACKETS) "Wi-Fi Device").1 =
      .error .NoExistingDevice ∧
    (UpdateCommonDevice scenario_tracker scenario_common ⟨0x112233445566, 0⟩
        scenario_phy scenario_packet UCD_UPDATE_PACKETS "Wi-Fi Device").1 = .ok 1 ∧
    (UpdateCommonDevice scenario_tracker scenario_common ⟨0xaabbccddeeff, 0⟩
        scenario_phy scenario_packet
        (UCD_UPDATE_EXISTING_ONLY ||| UCD_UPDATE_PACKETS) "Wi-Fi Device").1 =
      .ok 0 :=
  ⟨rfl, rfl, rfl⟩

/-- The create-on-first-packet scenario of the spec on an empty tracker, the
six facet flags set: one device, `first_seen = last_seen = t0`, one packet,
last signal -40, one count at 2412 and one packet seen by source 1. -/
theorem UpdateCommonDevice_scenario_create :
    scenario_created.1 = .ok 0 ∧
    scenario_created.2.tracked_vec = [0] ∧
    (scenario_created.2.devices 0).first_seen = 1000 ∧
    (scenario_created.2.devices 0).last_seen = 1000 ∧
    (scenario_created.2.devices 0).packets = 1 ∧
    (scenario_created.2.devices 0).signal.map (fun r => r.last_rssi) = some (-40) ∧
    map_find (scenario_created.2.devices 0).freq_map 2412 = some 1 ∧
    (map_find (scenario_created.2.devices 0).seenby 1).map (fun r => r.num_packets) =
      some 1 ∧
    scenario_created.2.eventbus = [.NEW_DEVICE 0] := by
  refine ⟨rfl, rfl, ?_, ?_, ?_, ?_, ?_, ?_, rfl⟩ <;> decide

/-! ### dot11_ie_221_vendor::parse: how the call ends -/

theorem parse_of_fewer_than_three (self : dot11_ie_221_vendor) (input : List Byte)
    (h : input.length < 3) :
    self.parse (kstream.of_bytes input) =
      { result := .error .end_of_stream, self := self,
        p_io := { data := input, pos := input.length } } := by
  have hn : ¬ (3 ≤ input.length) := Nat.not_le.mpr h
  simp [dot11_ie_221_vendor.parse, kstream.read_bytes, kstream.of_bytes, hn]

theorem parse_always_end_of_stream (self : dot11_ie_221_vendor) (input : List Byte) :
    (self.parse (kstream.of_bytes input)).result = .error .end_of_stream := by
  by_cases h : 3 ≤ input.length
  · rw [parse_of_three_or_more self input h]
  · rw [parse_of_fewer_than_three self input (Nat.lt_of_not_le h)]

/-- C11: on the four input bytes 00 50 f2 01, an input that is not shorter
than 4 bytes, `parse` does not complete: it ends with the end-of-stream error
`read_u1` raises after `read_bytes_full` has consumed the stream; the same
error ends the call on every input, whatever its length, so the error does not
tell inputs of fewer than 4 bytes from longer ones. -/
theorem parse_fails_on_four_bytes :
    ([0x00, 0x50, 0xf2, 0x01] : List Byte).length = 4 ∧
    (dot11_ie_221_vendor.parse
        { m_vendor_oui := [], m_vendor_tag := [], m_vendor_tag_stream := none,
          m_vendor_oui_type := 0 }
        (kstream.of_bytes [0x00, 0x50, 0xf2, 0x01])).result =
      .error .end_of_stream ∧
    (dot11_ie_221_vendor.parse
        { m_vendor_oui := [], m_vendor_tag := [], m_vendor_tag_stream := none,
          m_vendor_oui_type := 0 }
        (kstream.of_bytes [0x00, 0x50, 0xf2, 0x01])).result ≠ .ok () ∧
    (∀ (self : dot11_ie_221_vendor) (input : List Byte),
      (self.parse (kstream.of_bytes input)).result = .error .end_of_stream) := by
  refine ⟨rfl, rfl, ?_, parse_always_end_of_stream⟩
  intro h
  cases h


end Kismet
